import Mathlib

/-!
Verification of the `noaa` weather-API client library.

The Go source is embedded shallowly: the process-wide mutable configuration
and the points cache become explicit state that is passed in and returned,
the HTTP transport and the JSON decode step become oracles
(`String → Except String _`), and a Go `panic` in a setter is modelled as
an error result that leaves the configuration unchanged.  `float64` fields
are modelled as `ℚ` (all values relevant to the claims are exactly
representable).  `int32`/`int64` fields are modelled as `Int`.
-/

/-- Configuration of the client, translated from `Config` in `config.go`
(fields `BaseURL`, `UserAgent`, `Accept`, `Units`). -/
structure Config where
  BaseURL : String
  UserAgent : String
  Accept : String
  Units : String
deriving DecidableEq

/-- Translated from `endpointPoints` in `config.go`:
`fmt.Sprintf("%s/points/%s,%s", config.BaseURL, lat, lon)`. -/
def endpointPoints (cfg : Config) (lat lon : String) : String :=
  cfg.BaseURL ++ "/points/" ++ lat ++ "," ++ lon

/-- Translated from `endpointOffices` in `config.go`:
`fmt.Sprintf("%s/offices/%s", config.BaseURL, id)`. -/
def endpointOffices (cfg : Config) (id : String) : String :=
  cfg.BaseURL ++ "/offices/" ++ id

/-- Translated from `getUnitsQueryParam` in `config.go`: returns
`prefix + "units=" + config.Units` when `config.Units` is non-empty and the
empty string otherwise. -/
def getUnitsQueryParam (cfg : Config) (pre : String) : String :=
  if cfg.Units ≠ "" then pre ++ "units=" ++ cfg.Units else ""

/-- Model of the Go standard-library call `strings.ToLower`, restricted to
per-character lowercasing; on the ASCII inputs compared against "us" and
"si" it agrees with the Go function. -/
def goToLower (s : String) : String :=
  ⟨s.data.map Char.toLower⟩

/-- Translated from `SetUserAgent` in `config.go`.  The Go code panics on an
empty argument; the panic is modelled as an error message returned next to
the unchanged configuration. -/
def SetUserAgent (cur : Config) (userAgent : String) : Config × Option String :=
  if userAgent.length = 0 then
    (cur, some "the api requires a user-agent")
  else
    ({ cur with UserAgent := userAgent }, none)

/-- Translated from `SetBaseURL` in `config.go` (panics on empty argument,
modelled as an error result with the configuration unchanged). -/
def SetBaseURL (cur : Config) (url : String) : Config × Option String :=
  if url.length = 0 then
    (cur, some "the api requires a base url")
  else
    ({ cur with BaseURL := url }, none)

/-- Translated from `SetAcceptHeader` in `config.go` (panics on empty
argument, modelled as an error result with the configuration unchanged). -/
def SetAcceptHeader (cur : Config) (accept : String) : Config × Option String :=
  if accept.length = 0 then
    (cur, some "the api requires an accept header")
  else
    ({ cur with Accept := accept }, none)

/-- Translated from `SetUnits` in `config.go`: lowercases the argument and
stores it when it is "us" or "si", otherwise resets the unit preference to
the empty string.  This setter has no failure path in the source. -/
def SetUnits (cur : Config) (uom : String) : Config :=
  let units := goToLower uom
  if units ≠ "us" ∧ units ≠ "si" then
    { cur with Units := "" }
  else
    { cur with Units := units }

/-- Translated from `isConfigValid` in `config.go`. -/
def isConfigValid (c : Config) : Bool :=
  if 0 < c.Units.length ∧ c.Units ≠ "us" ∧ c.Units ≠ "si" then
    false
  else if c.Accept.length = 0 ∨ c.BaseURL.length = 0 ∨ c.UserAgent.length = 0 then
    false
  else
    true

/-- Translated from `SetConfig` in `config.go` (panics when `isConfigValid`
rejects the new configuration, modelled as an error result with the prior
configuration unchanged; otherwise replaces the whole configuration). -/
def SetConfig (cur : Config) (c : Config) : Config × Option String :=
  if !(isConfigValid c) then
    (cur, some "invalid configuration")
  else
    (c, none)

/-- Translated from `GetDefaultConfig` in `config.go`. -/
def GetDefaultConfig : Config :=
  { BaseURL := "https://api.weather.gov"
  , UserAgent := "github.com/icodealot/noaa"
  , Accept := "application/ld+json"
  , Units := "" }

/-- Resolved point metadata, translated from `PointsResponse` in the model
declarations file (the JSON field tags are dropped; decoding is handled by
the oracle). -/
structure PointsResponse where
  ID : String
  CWA : String
  Office : String
  GridX : Int
  GridY : Int
  EndpointForecast : String
  EndpointForecastHourly : String
  EndpointObservationStations : String
  EndpointForecastGridData : String
  Timezone : String
  RadarStation : String
deriving DecidableEq, Inhabited

/-- Translated from `StationsResponse`: only the list of observation
station URLs; the struct has no back-reference field. -/
structure StationsResponse where
  Stations : List String
deriving DecidableEq, Inhabited

/-- Translated from `QuantitativeValue` (value/max/min/unit-code/quality). -/
structure QuantitativeValue where
  Value : ℚ
  MaxValue : ℚ
  MinValue : ℚ
  UnitCode : String
  QualityControl : String
deriving DecidableEq, Inhabited

/-- Translated from `ForecastElevation`. -/
structure ForecastElevation where
  Value : ℚ
  Units : String
deriving DecidableEq, Inhabited

/-- Translated from `ForecastResponsePeriod` (latest model: legacy display
fields plus the quantitative values enabled by the feature-flags header). -/
structure ForecastResponsePeriod where
  ID : Int
  Name : String
  StartTime : String
  EndTime : String
  IsDaytime : Bool
  Temperature : ℚ
  TemperatureUnit : String
  TemperatureTrend : String
  WindSpeed : String
  WindDirection : String
  Icon : String
  Summary : String
  Details : String
  QuantitativeProbability : QuantitativeValue
  QuantitativeDewpoint : QuantitativeValue
  QuantitativeRelativeHumidity : QuantitativeValue
  QuantitativeTemperature : QuantitativeValue
  QuantitativeWindSpeed : QuantitativeValue
  QuantitativeWindGust : QuantitativeValue
deriving DecidableEq, Inhabited

/-- Translated from `type ForecastResponsePeriodHourly = ForecastResponsePeriod`. -/
abbrev ForecastResponsePeriodHourly := ForecastResponsePeriod

/-- Translated from `ForecastResponse`; `Point` is the back-reference set
after decoding (a nil pointer in Go, hence an `Option`). -/
structure ForecastResponse where
  Updated : String
  Units : String
  Elevation : ForecastElevation
  Periods : List ForecastResponsePeriod
  Point : Option PointsResponse
deriving DecidableEq, Inhabited

/-- Translated from `WeatherValueItem`. -/
structure WeatherValueItem where
  Coverage : String
  Weather : String
  Intensity : String
deriving DecidableEq, Inhabited

/-- Translated from `WeatherValue`. -/
structure WeatherValue where
  ValidTime : String
  Value : List WeatherValueItem
deriving DecidableEq, Inhabited

/-- Translated from `Weather`. -/
structure Weather where
  Values : List WeatherValue
deriving DecidableEq, Inhabited

/-- Translated from `HazardValueItem`. -/
structure HazardValueItem where
  Phenomenon : String
  Significance : String
  EventNumber : Int
deriving DecidableEq, Inhabited

/-- Translated from `HazardValue`. -/
structure HazardValue where
  ValidTime : String
  Value : List HazardValueItem
deriving DecidableEq, Inhabited

/-- Translated from `Hazard`. -/
structure Hazard where
  Values : List HazardValue
deriving DecidableEq, Inhabited

/-- Translated from `HourlyForecastResponse`. -/
structure HourlyForecastResponse where
  Updated : String
  Units : String
  ForecastGenerator : String
  GeneratedAt : String
  UpdateTime : String
  ValidTimes : String
  Periods : List ForecastResponsePeriodHourly
  Point : Option PointsResponse
deriving DecidableEq, Inhabited

/-- Translated from `GridpointForecastTimeSeriesValue`. -/
structure GridpointForecastTimeSeriesValue where
  ValidTime : String
  Value : ℚ
deriving DecidableEq, Inhabited

/-- Translated from `GridpointForecastTimeSeries`. -/
structure GridpointForecastTimeSeries where
  Uom : String
  Values : List GridpointForecastTimeSeriesValue
deriving DecidableEq, Inhabited

/-- Translated from `GridpointForecastResponse` (all time-series fields of
the source struct, plus the `Point` back-reference). -/
structure GridpointForecastResponse where
  Updated : String
  Elevation : ForecastElevation
  Weather : Weather
  Hazards : Hazard
  Temperature : GridpointForecastTimeSeries
  Dewpoint : GridpointForecastTimeSeries
  MaxTemperature : GridpointForecastTimeSeries
  MinTemperature : GridpointForecastTimeSeries
  RelativeHumidity : GridpointForecastTimeSeries
  ApparentTemperature : GridpointForecastTimeSeries
  HeatIndex : GridpointForecastTimeSeries
  WindChill : GridpointForecastTimeSeries
  SkyCover : GridpointForecastTimeSeries
  WindDirection : GridpointForecastTimeSeries
  WindSpeed : GridpointForecastTimeSeries
  WindGust : GridpointForecastTimeSeries
  ProbabilityOfPrecipitation : GridpointForecastTimeSeries
  QuantitativePrecipitation : GridpointForecastTimeSeries
  IceAccumulation : GridpointForecastTimeSeries
  SnowfallAmount : GridpointForecastTimeSeries
  SnowLevel : GridpointForecastTimeSeries
  CeilingHeight : GridpointForecastTimeSeries
  Visibility : GridpointForecastTimeSeries
  TransportWindSpeed : GridpointForecastTimeSeries
  TransportWindDirection : GridpointForecastTimeSeries
  MixingHeight : GridpointForecastTimeSeries
  HainesIndex : GridpointForecastTimeSeries
  LightningActivityLevel : GridpointForecastTimeSeries
  TwentyFootWindSpeed : GridpointForecastTimeSeries
  TwentyFootWindDirection : GridpointForecastTimeSeries
  WaveHeight : GridpointForecastTimeSeries
  WavePeriod : GridpointForecastTimeSeries
  WaveDirection : GridpointForecastTimeSeries
  PrimarySwellHeight : GridpointForecastTimeSeries
  PrimarySwellDirection : GridpointForecastTimeSeries
  SecondarySwellHeight : GridpointForecastTimeSeries
  SecondarySwellDirection : GridpointForecastTimeSeries
  WavePeriod2 : GridpointForecastTimeSeries
  WindWaveHeight : GridpointForecastTimeSeries
  DispersionIndex : GridpointForecastTimeSeries
  Pressure : GridpointForecastTimeSeries
  ProbabilityOfTropicalStormWinds : GridpointForecastTimeSeries
  ProbabilityOfHurricaneWinds : GridpointForecastTimeSeries
  PotentialOf15mphWinds : GridpointForecastTimeSeries
  PotentialOf25mphWinds : GridpointForecastTimeSeries
  PotentialOf35mphWinds : GridpointForecastTimeSeries
  PotentialOf45mphWinds : GridpointForecastTimeSeries
  PotentialOf20mphWindGusts : GridpointForecastTimeSeries
  PotentialOf30mphWindGusts : GridpointForecastTimeSeries
  PotentialOf40mphWindGusts : GridpointForecastTimeSeries
  PotentialOf50mphWindGusts : GridpointForecastTimeSeries
  PotentialOf60mphWindGusts : GridpointForecastTimeSeries
  GrasslandFireDangerIndex : GridpointForecastTimeSeries
  ProbabilityOfThunder : GridpointForecastTimeSeries
  DavisStabilityIndex : GridpointForecastTimeSeries
  AtmosphericDispersionIndex : GridpointForecastTimeSeries
  LowVisibilityOccurrenceRiskIndex : GridpointForecastTimeSeries
  Stability : GridpointForecastTimeSeries
  RedFlagThreatIndex : GridpointForecastTimeSeries
  Point : Option PointsResponse
deriving DecidableEq, Inhabited

/-- The points cache: the Go `map[string]*PointsResponse` keyed by endpoint
URL, modelled as a partial map. -/
def Cache : Type := String → Option PointsResponse

/-- Map update, the Go `pointsCache[endpoint] = points`. -/
def Cache.insert (c : Cache) (k : String) (v : PointsResponse) : Cache :=
  fun s => if s = k then some v else c s

/-- The empty cache (initial process state). -/
def emptyCache : Cache := fun _ => none

/-- The remote service together with the request/decode pipeline, as an
oracle per decoded shape: each field maps an endpoint URL to either an
error (transport, HTTP-status or decode failure) or a decoded value.  The
spec treats the remote service as a black box. -/
structure Net where
  points : String → Except String PointsResponse
  stations : String → Except String StationsResponse
  forecast : String → Except String ForecastResponse
  hourly : String → Except String HourlyForecastResponse
  gridpoint : String → Except String GridpointForecastResponse

/-- Translated from `Points` in the endpoints file: build the endpoint from
the configuration and the raw latitude/longitude strings, serve from the
cache when the exact endpoint string is present, otherwise fetch and
decode, caching only on success.  The third component is the list of
endpoint URLs actually requested over the network (empty on a cache
hit). -/
def Points (cfg : Config) (net : Net) (cache : Cache) (lat lon : String) :
    Except String PointsResponse × Cache × List String :=
  match cache (endpointPoints cfg lat lon) with
  | some p => (.ok p, cache, [])
  | none =>
    match net.points (endpointPoints cfg lat lon) with
    | .error e => (.error e, cache, [endpointPoints cfg lat lon])
    | .ok p =>
      (.ok p, Cache.insert cache (endpointPoints cfg lat lon) p,
        [endpointPoints cfg lat lon])

/-- Translated from `Stations`: resolve points, then fetch the observation
stations URL of the resolved record; the decoded response is returned
unchanged (the source assigns no back-reference onto it). -/
def Stations (cfg : Config) (net : Net) (cache : Cache) (lat lon : String) :
    Except String StationsResponse × Cache × List String :=
  match Points cfg net cache lat lon with
  | (.error e, c, tr) => (.error e, c, tr)
  | (.ok point, c, tr) =>
    match net.stations point.EndpointObservationStations with
    | .error e => (.error e, c, tr ++ [point.EndpointObservationStations])
    | .ok s => (.ok s, c, tr ++ [point.EndpointObservationStations])

/-- Translated from `Forecast`: resolve points, fetch the forecast URL with
the units query parameter, then attach the resolved record. -/
def Forecast (cfg : Config) (net : Net) (cache : Cache) (lat lon : String) :
    Except String ForecastResponse × Cache × List String :=
  match Points cfg net cache lat lon with
  | (.error e, c, tr) => (.error e, c, tr)
  | (.ok point, c, tr) =>
    match net.forecast (point.EndpointForecast ++ getUnitsQueryParam cfg "?") with
    | .error e => (.error e, c, tr ++ [point.EndpointForecast ++ getUnitsQueryParam cfg "?"])
    | .ok f =>
      (.ok { f with Point := some point }, c,
        tr ++ [point.EndpointForecast ++ getUnitsQueryParam cfg "?"])

/-- Translated from `GridpointForecast` (same protocol against the grid
data URL). -/
def GridpointForecast (cfg : Config) (net : Net) (cache : Cache) (lat lon : String) :
    Except String GridpointForecastResponse × Cache × List String :=
  match Points cfg net cache lat lon with
  | (.error e, c, tr) => (.error e, c, tr)
  | (.ok point, c, tr) =>
    match net.gridpoint (point.EndpointForecastGridData ++ getUnitsQueryParam cfg "?") with
    | .error e => (.error e, c, tr ++ [point.EndpointForecastGridData ++ getUnitsQueryParam cfg "?"])
    | .ok f =>
      (.ok { f with Point := some point }, c,
        tr ++ [point.EndpointForecastGridData ++ getUnitsQueryParam cfg "?"])

/-- Translated from `HourlyForecast` (same protocol against the hourly
forecast URL). -/
def HourlyForecast (cfg : Config) (net : Net) (cache : Cache) (lat lon : String) :
    Except String HourlyForecastResponse × Cache × List String :=
  match Points cfg net cache lat lon with
  | (.error e, c, tr) => (.error e, c, tr)
  | (.ok point, c, tr) =>
    match net.hourly (point.EndpointForecastHourly ++ getUnitsQueryParam cfg "?") with
    | .error e => (.error e, c, tr ++ [point.EndpointForecastHourly ++ getUnitsQueryParam cfg "?"])
    | .ok f =>
      (.ok { f with Point := some point }, c,
        tr ++ [point.EndpointForecastHourly ++ getUnitsQueryParam cfg "?"])

/-- An HTTP response as seen by the pipeline: numeric status code, status
line text (the Go `res.Status`, e.g. "404 Not Found") and body. -/
structure HttpResponse where
  StatusCode : Nat
  Status : String
  Body : String
deriving DecidableEq, Inhabited

namespace Http

/-- Translated from `get` in `http.go`: execute the request through the
transport (an oracle from endpoint to response or transport error) and
fail with `fmt.Sprintf("%d %s", res.StatusCode, res.Status)` whenever the
status code differs from `http.StatusOK` (200). -/
def get (transport : String → Except String HttpResponse) (endpoint : String) :
    Except String HttpResponse :=
  match transport endpoint with
  | .error e => .error e
  | .ok res =>
    if res.StatusCode ≠ 200 then
      .error (toString res.StatusCode ++ " " ++ res.Status)
    else
      .ok res

end Http

/-- Modelled from the spec: rounding to the nearest integer, as used by the
wind-speed display string of the unit normalizer (§4.5); the normalizer
source file is not among the provided sources, only the quantitative-value
declarations it reads and the legacy display fields it fills are. -/
def roundQ (q : ℚ) : ℤ :=
  Int.fdiv (2 * q.num + q.den) (2 * q.den)

/-- Modelled from the spec: the binary WMO unit-code test for km/h used by
the wind-speed conversion of §4.5 (a source code that is not km/h is
assumed to be mph). -/
def isUnitCodeKmh (code : String) : Bool :=
  code == "wmoUnit:km_h-1"

/-- Modelled from the spec: scale the value, min and max of a quantitative
wind speed by a conversion factor, updating its unit code (§4.5). -/
def scaleQV (factor : ℚ) (code : String) (qv : QuantitativeValue) : QuantitativeValue :=
  { qv with
    Value := qv.Value * factor
    MinValue := qv.MinValue * factor
    MaxValue := qv.MaxValue * factor
    UnitCode := code }

/-- Modelled from the spec: the legacy wind-speed display string of §4.5:
when both min and max are zero it renders "<value rounded> <unit>",
otherwise "<min rounded> to <max rounded> <unit>". -/
def windSpeedText (qv : QuantitativeValue) (unitLabel : String) : String :=
  if qv.MinValue = 0 ∧ qv.MaxValue = 0 then
    toString (roundQ qv.Value) ++ " " ++ unitLabel
  else
    toString (roundQ qv.MinValue) ++ " to " ++ toString (roundQ qv.MaxValue) ++ " " ++ unitLabel

/-- Modelled from the spec: the wind-speed half of the unit normalizer
(§4.5).  With "si" configured the display unit is km/h, converting with
factor 1.60934 when the source unit code is not already km/h; otherwise
(default/"us") the display unit is mph, converting with factor 0.62137
when the source unit code indicates km/h. -/
def normalizeWindSpeed (units : String) (qv : QuantitativeValue) : String :=
  if units = "si" then
    windSpeedText
      (if isUnitCodeKmh qv.UnitCode then qv
        else scaleQV (160934 / 100000) "wmoUnit:km_h-1" qv) "km/h"
  else
    windSpeedText
      (if isUnitCodeKmh qv.UnitCode then scaleQV (62137 / 100000) "wmoUnit:mph" qv
        else qv) "mph"

/-- Test fixture: a concrete resolved points record. -/
def pr0 : PointsResponse :=
  { ID := "id0", CWA := "LOT", Office := "office", GridX := 74, GridY := 71
  , EndpointForecast := "F", EndpointForecastHourly := "H"
  , EndpointObservationStations := "S", EndpointForecastGridData := "G"
  , Timezone := "tz", RadarStation := "r" }

/-- Test fixture: a second points record, differing from `pr0` in its ID. -/
def pr1 : PointsResponse := { pr0 with ID := "id1" }

/-- Test fixture: a stations response. -/
def st0 : StationsResponse := { Stations := ["st1"] }

/-- Test fixture: a decoded forecast response (all fields default). -/
def fr0 : ForecastResponse := default

/-- Test fixture: a decoded hourly forecast response. -/
def hr0 : HourlyForecastResponse := default

/-- Test fixture: a decoded gridpoint forecast response. -/
def gr0 : GridpointForecastResponse := default

/-- Test fixture: a configuration with no unit preference. -/
def cfg0 : Config :=
  { BaseURL := "https://api.weather.gov", UserAgent := "u", Accept := "a", Units := "" }

/-- Test fixture: the same configuration with metric units configured. -/
def cfgSI : Config := { cfg0 with Units := "si" }

/-- Test fixture: a service where every endpoint resolves to `pr0` and the
fixture responses. -/
def net0 : Net :=
  { points := fun _ => .ok pr0
  , stations := fun _ => .ok st0
  , forecast := fun _ => .ok fr0
  , hourly := fun _ => .ok hr0
  , gridpoint := fun _ => .ok gr0 }

/-- Test fixture: as `net0` but resolving points to `pr1`. -/
def net1 : Net := { net0 with points := fun _ => .ok pr1 }

/-- Test fixture: a service whose points endpoint always fails. -/
def netErr : Net := { net0 with points := fun _ => .error "boom" }

/-- A string has length zero exactly when it is the empty string; used to
relate the length tests of `config.go` to emptiness. -/
theorem string_length_zero_iff (s : String) : s.length = 0 ↔ s = "" := by
  cases s with
  | mk l => simp [String.length, String.ext_iff]

/-- The rejection condition of `isConfigValid`, phrased through emptiness of
the fields. -/
theorem isConfigValid_eq_false_iff (c : Config) :
    isConfigValid c = false ↔
      (c.BaseURL = "" ∨ c.UserAgent = "" ∨ c.Accept = "" ∨
        (c.Units ≠ "" ∧ c.Units ≠ "us" ∧ c.Units ≠ "si")) := by
  simp only [isConfigValid]
  by_cases h1 : 0 < c.Units.length ∧ c.Units ≠ "us" ∧ c.Units ≠ "si"
  · simp only [if_pos h1]
    have hne : c.Units ≠ "" := by
      intro he
      rw [he] at h1
      exact absurd h1.1 (by decide)
    simp only [true_iff]
    exact Or.inr (Or.inr (Or.inr ⟨hne, h1.2.1, h1.2.2⟩))
  · simp only [if_neg h1]
    by_cases h2 : c.Accept.length = 0 ∨ c.BaseURL.length = 0 ∨ c.UserAgent.length = 0
    · simp only [if_pos h2, true_iff]
      rcases h2 with h2 | h2 | h2
      · exact Or.inr (Or.inr (Or.inl ((string_length_zero_iff c.Accept).mp h2)))
      · exact Or.inl ((string_length_zero_iff c.BaseURL).mp h2)
      · exact Or.inr (Or.inl ((string_length_zero_iff c.UserAgent).mp h2))
    · simp only [if_neg h2]
      constructor
      · intro h
        exact absurd h (by decide)
      intro h
      exfalso
      rcases h with h | h | h | h
      · exact h2 (Or.inr (Or.inl ((string_length_zero_iff c.BaseURL).mpr h)))
      · exact h2 (Or.inr (Or.inr ((string_length_zero_iff c.UserAgent).mpr h)))
      · exact h2 (Or.inl ((string_length_zero_iff c.Accept).mpr h))
      · apply h1
        refine ⟨?_, h.2.1, h.2.2⟩
        rcases Nat.eq_zero_or_pos c.Units.length with hz | hp
        · exact absurd ((string_length_zero_iff c.Units).mp hz) h.1
        · exact hp

/-- C6: `SetConfig c` fails exactly when `c` has an empty base URL, empty
user-agent, or empty accept header, or a units value outside
{"us", "si", ""}; on failure the prior configuration is returned intact in
every field, and on success the stored configuration equals `c`. -/
theorem SetConfig_valid_iff (cur c : Config) :
    ((SetConfig cur c).2.isSome ↔
      (c.BaseURL = "" ∨ c.UserAgent = "" ∨ c.Accept = "" ∨
        (c.Units ≠ "" ∧ c.Units ≠ "us" ∧ c.Units ≠ "si"))) ∧
    ((SetConfig cur c).2.isSome → (SetConfig cur c).1 = cur) ∧
    ((SetConfig cur c).2 = none → (SetConfig cur c).1 = c) := by
  cases hval : isConfigValid c with
  | false =>
    have hs : SetConfig cur c = (cur, some "invalid configuration") := by
      simp [SetConfig, hval]
    rw [hs]
    refine ⟨?_, fun _ => rfl, fun h => by simp at h⟩
    simp only [Option.isSome_some, true_iff]
    exact (isConfigValid_eq_false_iff c).mp hval
  | true =>
    have hs : SetConfig cur c = (c, none) := by
      simp [SetConfig, hval]
    rw [hs]
    refine ⟨?_, by simp, fun _ => rfl⟩
    simp only [Option.isSome_none, Bool.false_eq_true, false_iff]
    intro h
    have hfalse : isConfigValid c = false := (isConfigValid_eq_false_iff c).mpr h
    rw [hval] at hfalse
    exact absurd hfalse (by decide)

/-- C6 witness: instantiates the bulk-replace theorem at a configuration
with an invalid units value (rejected, prior configuration kept) and at a
valid one (stored as given). -/
theorem SetConfig_valid_iff_witness :
    (SetConfig GetDefaultConfig
        { BaseURL := "b", UserAgent := "u", Accept := "a", Units := "metric" }).1 =
      GetDefaultConfig ∧
    (SetConfig GetDefaultConfig
        { BaseURL := "b", UserAgent := "u", Accept := "a", Units := "si" }).1 =
      { BaseURL := "b", UserAgent := "u", Accept := "a", Units := "si" } :=
  ⟨(SetConfig_valid_iff GetDefaultConfig
      { BaseURL := "b", UserAgent := "u", Accept := "a", Units := "metric" }).2.1 (by decide),
    (SetConfig_valid_iff GetDefaultConfig
      { BaseURL := "b", UserAgent := "u", Accept := "a", Units := "si" }).2.2 (by decide)⟩

/-- C7: each single-field setter (`SetUserAgent`, `SetBaseURL`,
`SetAcceptHeader`) fails on the empty string leaving every configuration
field intact, and on a non-empty string succeeds changing only its own
field. -/
theorem single_field_setters (cur : Config) (s : String) :
    (s = "" →
      SetUserAgent cur s = (cur, some "the api requires a user-agent") ∧
      SetBaseURL cur s = (cur, some "the api requires a base url") ∧
      SetAcceptHeader cur s = (cur, some "the api requires an accept header")) ∧
    (s ≠ "" →
      SetUserAgent cur s = ({ cur with UserAgent := s }, none) ∧
      SetBaseURL cur s = ({ cur with BaseURL := s }, none) ∧
      SetAcceptHeader cur s = ({ cur with Accept := s }, none)) := by
  constructor
  · intro h
    subst h
    refine ⟨?_, ?_, ?_⟩ <;> rfl
  · intro h
    have hl : ¬ s.length = 0 := fun hz => h ((string_length_zero_iff s).mp hz)
    refine ⟨?_, ?_, ?_⟩
    · simp only [SetUserAgent, if_neg hl]
    · simp only [SetBaseURL, if_neg hl]
    · simp only [SetAcceptHeader, if_neg hl]

/-- C7 witness: instantiates the setter theorem at the empty string and at
"x" on the default configuration. -/
theorem single_field_setters_witness :
    (SetUserAgent GetDefaultConfig "" = (GetDefaultConfig, some "the api requires a user-agent") ∧
      SetBaseURL GetDefaultConfig "" = (GetDefaultConfig, some "the api requires a base url") ∧
      SetAcceptHeader GetDefaultConfig "" = (GetDefaultConfig, some "the api requires an accept header")) ∧
    (SetUserAgent GetDefaultConfig "x" = ({ GetDefaultConfig with UserAgent := "x" }, none) ∧
      SetBaseURL GetDefaultConfig "x" = ({ GetDefaultConfig with BaseURL := "x" }, none) ∧
      SetAcceptHeader GetDefaultConfig "x" = ({ GetDefaultConfig with Accept := "x" }, none)) :=
  ⟨(single_field_setters GetDefaultConfig "").1 rfl,
    (single_field_setters GetDefaultConfig "x").2 (by decide)⟩

/-- C8: `SetUnits` never fails: when the lowercase form of the input is
"us" or "si" the stored unit preference becomes that lowercase value, and
for any other input the preference is reset to the empty string; the other
configuration fields are unchanged in both cases. -/
theorem SetUnits_total (cur : Config) (uom : String) :
    (SetUnits cur uom).Units =
      (if goToLower uom = "us" ∨ goToLower uom = "si" then goToLower uom else "") ∧
    (SetUnits cur uom).BaseURL = cur.BaseURL ∧
    (SetUnits cur uom).UserAgent = cur.UserAgent ∧
    (SetUnits cur uom).Accept = cur.Accept := by
  simp only [SetUnits]
  by_cases h : goToLower uom ≠ "us" ∧ goToLower uom ≠ "si"
  · rw [if_pos h, if_neg (by tauto)]
    exact ⟨rfl, rfl, rfl, rfl⟩
  · rw [if_neg h, if_pos (by tauto)]
    exact ⟨rfl, rfl, rfl, rfl⟩

/-- On a cache hit `Points` returns the cached record, leaves the cache
unchanged and performs no network request. -/
theorem Points_hit (cfg : Config) (net : Net) (cache : Cache) (lat lon : String)
    (p : PointsResponse) (h : cache (endpointPoints cfg lat lon) = some p) :
    Points cfg net cache lat lon = (.ok p, cache, []) := by
  unfold Points
  rw [h]

/-- On a cache miss with a successful fetch, `Points` returns the decoded
record, stores it under the endpoint key and performs one request. -/
theorem Points_miss_ok (cfg : Config) (net : Net) (cache : Cache) (lat lon : String)
    (p : PointsResponse)
    (hm : cache (endpointPoints cfg lat lon) = none)
    (hn : net.points (endpointPoints cfg lat lon) = .ok p) :
    Points cfg net cache lat lon =
      (.ok p, Cache.insert cache (endpointPoints cfg lat lon) p,
        [endpointPoints cfg lat lon]) := by
  unfold Points
  rw [hm, hn]

/-- On a cache miss with a failed fetch or decode, `Points` propagates the
error, leaves the cache unchanged and performed one request. -/
theorem Points_miss_error (cfg : Config) (net : Net) (cache : Cache) (lat lon : String)
    (e : String)
    (hm : cache (endpointPoints cfg lat lon) = none)
    (hn : net.points (endpointPoints cfg lat lon) = .error e) :
    Points cfg net cache lat lon = (.error e, cache, [endpointPoints cfg lat lon]) := by
  unfold Points
  rw [hm, hn]

/-- C1: a first successful `Points` call on a cache miss stores the decoded
record keyed by the endpoint URL built from the base URL and the two raw
strings, performing exactly one network request; any later call with the
same string pair (under the same configuration) against a cache holding
that entry returns the cached record with no network request; and no
`Points` call ever removes or replaces an existing entry. -/
theorem points_fetched_once (cfg : Config) (net : Net) (cache : Cache)
    (lat lon : String) (p : PointsResponse)
    (hmiss : cache (endpointPoints cfg lat lon) = none)
    (hok : (Points cfg net cache lat lon).1 = .ok p) :
    ((Points cfg net cache lat lon).2.1) (endpointPoints cfg lat lon) = some p ∧
    (Points cfg net cache lat lon).2.2 = [endpointPoints cfg lat lon] ∧
    (∀ (net2 : Net) (cache2 : Cache),
      cache2 (endpointPoints cfg lat lon) = some p →
      Points cfg net2 cache2 lat lon = (.ok p, cache2, [])) ∧
    (∀ (net2 : Net) (cache2 : Cache) (lat2 lon2 k : String),
      cache2 k = some p → ((Points cfg net2 cache2 lat2 lon2).2.1) k = some p) := by
  cases hn : net.points (endpointPoints cfg lat lon) with
  | error e =>
    rw [Points_miss_error cfg net cache lat lon e hmiss hn] at hok
    exact absurd hok (by simp)
  | ok q =>
    have heq := Points_miss_ok cfg net cache lat lon q hmiss hn
    rw [heq] at hok
    simp only [Except.ok.injEq] at hok
    subst hok
    rw [heq]
    refine ⟨by simp [Cache.insert], rfl, ?_, ?_⟩
    · intro net2 cache2 h2
      exact Points_hit cfg net2 cache2 lat lon q h2
    · intro net2 cache2 lat2 lon2 k hk
      cases hc2 : cache2 (endpointPoints cfg lat2 lon2) with
      | some r =>
        rw [Points_hit cfg net2 cache2 lat2 lon2 r hc2]
        exact hk
      | none =>
        cases hn2 : net2.points (endpointPoints cfg lat2 lon2) with
        | error e2 =>
          rw [Points_miss_error cfg net2 cache2 lat2 lon2 e2 hc2 hn2]
          exact hk
        | ok r =>
          rw [Points_miss_ok cfg net2 cache2 lat2 lon2 r hc2 hn2]
          show Cache.insert cache2 (endpointPoints cfg lat2 lon2) r k = some q
          unfold Cache.insert
          by_cases hke : k = endpointPoints cfg lat2 lon2
          · exfalso
            rw [hke] at hk
            rw [hk] at hc2
            exact Option.noConfusion hc2
          · rw [if_neg hke]
            exact hk

/-- C1 witness: after a first fetch for ("41.837", "-87.685") the record is
cached under the endpoint key, the network was hit exactly once, and the
second call is served entirely from the cache with no request. -/
theorem points_fetched_once_witness :
    ((Points cfg0 net0 emptyCache "41.837" "-87.685").2.1)
        (endpointPoints cfg0 "41.837" "-87.685") = some pr0 ∧
    (Points cfg0 net0 emptyCache "41.837" "-87.685").2.2 =
      [endpointPoints cfg0 "41.837" "-87.685"] ∧
    Points cfg0 net0 ((Points cfg0 net0 emptyCache "41.837" "-87.685").2.1)
        "41.837" "-87.685" =
      (.ok pr0, (Points cfg0 net0 emptyCache "41.837" "-87.685").2.1, []) :=
  ⟨(points_fetched_once cfg0 net0 emptyCache "41.837" "-87.685" pr0 rfl rfl).1,
    (points_fetched_once cfg0 net0 emptyCache "41.837" "-87.685" pr0 rfl rfl).2.1,
    (points_fetched_once cfg0 net0 emptyCache "41.837" "-87.685" pr0 rfl rfl).2.2.1 net0 _
      (points_fetched_once cfg0 net0 emptyCache "41.837" "-87.685" pr0 rfl rfl).1⟩

/-- Appending to a string is left-cancellative, through the underlying
character lists. -/
theorem string_append_left_cancel (a b c : String) (h : a ++ b = a ++ c) : b = c := by
  rw [String.ext_iff] at h ⊢
  simp only [String.data_append] at h
  exact List.append_cancel_left h

/-- Two points endpoints agree only when the "lat,lon" suffixes agree: the
key is the literal base URL, path and raw coordinate strings. -/
theorem endpointPoints_inj (cfg : Config) (lat1 lon1 lat2 lon2 : String)
    (h : lat1 ++ "," ++ lon1 ≠ lat2 ++ "," ++ lon2) :
    endpointPoints cfg lat1 lon1 ≠ endpointPoints cfg lat2 lon2 := by
  intro he
  apply h
  unfold endpointPoints at he
  have h1 : cfg.BaseURL ++ "/points/" ++ (lat1 ++ "," ++ lon1) =
      cfg.BaseURL ++ "/points/" ++ (lat2 ++ "," ++ lon2) := by
    rw [String.ext_iff] at he ⊢
    simp only [String.data_append, List.append_assoc] at he ⊢
    exact he
  exact string_append_left_cancel _ _ _ h1

/-- C2 (amended): two `Points` calls whose "lat,lon" strings differ (in
particular, textually different coordinate pairs that do not move the comma,
such as "41.8370" versus "41.837" with a fixed longitude) use different
literal endpoint cache keys, so each call performs its own network fetch on
an initially cold cache and the two entries coexist afterwards. -/
theorem points_distinct_endpoint_keys (cfg : Config) (net : Net) (cache : Cache)
    (lat1 lon1 lat2 lon2 : String) (p1 : PointsResponse)
    (hne : lat1 ++ "," ++ lon1 ≠ lat2 ++ "," ++ lon2)
    (hm1 : cache (endpointPoints cfg lat1 lon1) = none)
    (hm2 : cache (endpointPoints cfg lat2 lon2) = none)
    (h1 : (Points cfg net cache lat1 lon1).1 = .ok p1) :
    endpointPoints cfg lat1 lon1 ≠ endpointPoints cfg lat2 lon2 ∧
    (Points cfg net cache lat1 lon1).2.2 = [endpointPoints cfg lat1 lon1] ∧
    (Points cfg net ((Points cfg net cache lat1 lon1).2.1) lat2 lon2).2.2 =
      [endpointPoints cfg lat2 lon2] ∧
    ∀ p2, (Points cfg net ((Points cfg net cache lat1 lon1).2.1) lat2 lon2).1 = .ok p2 →
      ((Points cfg net ((Points cfg net cache lat1 lon1).2.1) lat2 lon2).2.1)
          (endpointPoints cfg lat1 lon1) = some p1 ∧
      ((Points cfg net ((Points cfg net cache lat1 lon1).2.1) lat2 lon2).2.1)
          (endpointPoints cfg lat2 lon2) = some p2 := by
  have hkey := endpointPoints_inj cfg lat1 lon1 lat2 lon2 hne
  cases hn1 : net.points (endpointPoints cfg lat1 lon1) with
  | error e =>
    rw [Points_miss_error cfg net cache lat1 lon1 e hm1 hn1] at h1
    exact absurd h1 (by simp)
  | ok q1 =>
    have heq1 := Points_miss_ok cfg net cache lat1 lon1 q1 hm1 hn1
    rw [heq1] at h1
    simp only [Except.ok.injEq] at h1
    subst h1
    rw [heq1]
    refine ⟨hkey, rfl, ?_, ?_⟩ <;>
      simp only
    · have hm2b : Cache.insert cache (endpointPoints cfg lat1 lon1) q1
          (endpointPoints cfg lat2 lon2) = none := by
        unfold Cache.insert
        rw [if_neg (fun hx => hkey hx.symm)]
        exact hm2
      cases hn2 : net.points (endpointPoints cfg lat2 lon2) with
      | error e2 =>
        rw [Points_miss_error cfg net _ lat2 lon2 e2 hm2b hn2]
      | ok q2 =>
        rw [Points_miss_ok cfg net _ lat2 lon2 q2 hm2b hn2]
    · intro p2 h2
      have hm2b : Cache.insert cache (endpointPoints cfg lat1 lon1) q1
          (endpointPoints cfg lat2 lon2) = none := by
        unfold Cache.insert
        rw [if_neg (fun hx => hkey hx.symm)]
        exact hm2
      cases hn2 : net.points (endpointPoints cfg lat2 lon2) with
      | error e2 =>
        rw [Points_miss_error cfg net _ lat2 lon2 e2 hm2b hn2] at h2
        exact absurd h2 (by simp)
      | ok q2 =>
        have heq2 := Points_miss_ok cfg net _ lat2 lon2 q2 hm2b hn2
        rw [heq2] at h2
        simp only [Except.ok.injEq] at h2
        subst h2
        rw [heq2]
        constructor
        · show Cache.insert _ (endpointPoints cfg lat2 lon2) q2
              (endpointPoints cfg lat1 lon1) = some q1
          unfold Cache.insert
          rw [if_neg hkey]
          rw [if_pos rfl]
        · show Cache.insert _ (endpointPoints cfg lat2 lon2) q2
              (endpointPoints cfg lat2 lon2) = some q2
          unfold Cache.insert
          rw [if_pos rfl]

/-- C2 witness: instantiates the amended theorem at the coordinate strings
"41.8370" and "41.837" of the spec (same longitude): the keys differ, both
calls fetch over the network, and both entries are present afterwards. -/
theorem points_distinct_endpoint_keys_witness :
    endpointPoints cfg0 "41.8370" "-87.685" ≠ endpointPoints cfg0 "41.837" "-87.685" ∧
    (Points cfg0 net0 emptyCache "41.8370" "-87.685").2.2 =
      [endpointPoints cfg0 "41.8370" "-87.685"] ∧
    (Points cfg0 net0 ((Points cfg0 net0 emptyCache "41.8370" "-87.685").2.1)
        "41.837" "-87.685").2.2 = [endpointPoints cfg0 "41.837" "-87.685"] ∧
    ((Points cfg0 net0 ((Points cfg0 net0 emptyCache "41.8370" "-87.685").2.1)
        "41.837" "-87.685").2.1) (endpointPoints cfg0 "41.8370" "-87.685") = some pr0 ∧
    ((Points cfg0 net0 ((Points cfg0 net0 emptyCache "41.8370" "-87.685").2.1)
        "41.837" "-87.685").2.1) (endpointPoints cfg0 "41.837" "-87.685") = some pr0 := by
  have h := points_distinct_endpoint_keys cfg0 net0 emptyCache
    "41.8370" "-87.685" "41.837" "-87.685" pr0 (by decide) rfl rfl rfl
  exact ⟨h.1, h.2.1, h.2.2.1, (h.2.2.2 pr0 rfl).1, (h.2.2.2 pr0 rfl).2⟩

/-- C2 counterexample: the claim quantifies over all textually different
string pairs, but a pair whose strings move the comma produces the same
literal endpoint: with lat "1,", lon "2" versus lat "1", lon ",2" the pairs
are textually different yet build the same key, so the second call is
served from the cache and performs no network fetch at all. -/
theorem points_textually_distinct_same_key :
    (("1,", "2") : String × String) ≠ ("1", ",2") ∧
    endpointPoints cfg0 "1," "2" = endpointPoints cfg0 "1" ",2" ∧
    (Points cfg0 net0 emptyCache "1," "2").2.2 = [endpointPoints cfg0 "1," "2"] ∧
    (Points cfg0 net0 ((Points cfg0 net0 emptyCache "1," "2").2.1) "1" ",2").2.2 = [] := by
  refine ⟨by decide, rfl, rfl, ?_⟩
  rfl

/-- C10: when `Points` misses the cache and the fetch or decode fails, the
error is returned with no record and the cache is left unchanged; moreover,
after any `Points` call, every cache entry either was already present or is
a record successfully fetched and decoded from the network at its own
key. -/
theorem points_error_leaves_cache (cfg : Config) (net : Net) (cache : Cache)
    (lat lon : String) (e : String)
    (hmiss : cache (endpointPoints cfg lat lon) = none)
    (hfail : net.points (endpointPoints cfg lat lon) = .error e) :
    (Points cfg net cache lat lon).1 = .error e ∧
    (Points cfg net cache lat lon).2.1 = cache ∧
    ∀ (net2 : Net) (cache2 : Cache) (lat2 lon2 k : String),
      ((Points cfg net2 cache2 lat2 lon2).2.1) k = cache2 k ∨
      ∃ p, net2.points k = .ok p ∧ ((Points cfg net2 cache2 lat2 lon2).2.1) k = some p := by
  rw [Points_miss_error cfg net cache lat lon e hmiss hfail]
  refine ⟨rfl, rfl, ?_⟩
  intro net2 cache2 lat2 lon2 k
  cases hc2 : cache2 (endpointPoints cfg lat2 lon2) with
  | some r =>
    rw [Points_hit cfg net2 cache2 lat2 lon2 r hc2]
    exact Or.inl rfl
  | none =>
    cases hn2 : net2.points (endpointPoints cfg lat2 lon2) with
    | error e2 =>
      rw [Points_miss_error cfg net2 cache2 lat2 lon2 e2 hc2 hn2]
      exact Or.inl rfl
    | ok r =>
      rw [Points_miss_ok cfg net2 cache2 lat2 lon2 r hc2 hn2]
      by_cases hke : k = endpointPoints cfg lat2 lon2
      · refine Or.inr ⟨r, ?_, ?_⟩
        · rw [hke]
          exact hn2
        · show Cache.insert cache2 (endpointPoints cfg lat2 lon2) r k = some r
          unfold Cache.insert
          rw [if_pos hke]
      · refine Or.inl ?_
        show Cache.insert cache2 (endpointPoints cfg lat2 lon2) r k = cache2 k
        unfold Cache.insert
        rw [if_neg hke]

/-- C10 witness: with a failing points endpoint, the call returns the error
and the cache stays empty. -/
theorem points_error_leaves_cache_witness :
    (Points cfg0 netErr emptyCache "41.837" "-87.685").1 = .error "boom" ∧
    (Points cfg0 netErr emptyCache "41.837" "-87.685").2.1 = emptyCache :=
  ⟨(points_error_leaves_cache cfg0 netErr emptyCache "41.837" "-87.685" "boom" rfl rfl).1,
    (points_error_leaves_cache cfg0 netErr emptyCache "41.837" "-87.685" "boom" rfl rfl).2.1⟩

/-- C4 (amended): `Forecast`, `HourlyForecast` and `GridpointForecast`
attach the resolved points record onto the decoded result after decoding,
equal to the record returned by points resolution; `Stations` does not:
its result is the decoded response unchanged, and `StationsResponse` has no
back-reference field. -/
theorem accessors_attach_point (cfg : Config) (net : Net) (cache : Cache)
    (lat lon : String) (p : PointsResponse)
    (hp : (Points cfg net cache lat lon).1 = .ok p) :
    (∀ f, (Forecast cfg net cache lat lon).1 = .ok f → f.Point = some p) ∧
    (∀ f, (HourlyForecast cfg net cache lat lon).1 = .ok f → f.Point = some p) ∧
    (∀ f, (GridpointForecast cfg net cache lat lon).1 = .ok f → f.Point = some p) ∧
    (∀ s, (Stations cfg net cache lat lon).1 = .ok s →
      net.stations p.EndpointObservationStations = .ok s) := by
  rcases hP : Points cfg net cache lat lon with ⟨r, c, tr⟩
  rw [hP] at hp
  simp only at hp
  subst hp
  refine ⟨?_, ?_, ?_, ?_⟩
  · intro f hf
    unfold Forecast at hf
    rw [hP] at hf
    simp only at hf
    cases hnf : net.forecast (p.EndpointForecast ++ getUnitsQueryParam cfg "?") with
    | error e =>
      rw [hnf] at hf
      simp at hf
    | ok g =>
      rw [hnf] at hf
      simp only [Except.ok.injEq] at hf
      rw [← hf]
  · intro f hf
    unfold HourlyForecast at hf
    rw [hP] at hf
    simp only at hf
    cases hnf : net.hourly (p.EndpointForecastHourly ++ getUnitsQueryParam cfg "?") with
    | error e =>
      rw [hnf] at hf
      simp at hf
    | ok g =>
      rw [hnf] at hf
      simp only [Except.ok.injEq] at hf
      rw [← hf]
  · intro f hf
    unfold GridpointForecast at hf
    rw [hP] at hf
    simp only at hf
    cases hnf : net.gridpoint (p.EndpointForecastGridData ++ getUnitsQueryParam cfg "?") with
    | error e =>
      rw [hnf] at hf
      simp at hf
    | ok g =>
      rw [hnf] at hf
      simp only [Except.ok.injEq] at hf
      rw [← hf]
  · intro s hs
    unfold Stations at hs
    rw [hP] at hs
    simp only at hs
    cases hns : net.stations p.EndpointObservationStations with
    | error e =>
      rw [hns] at hs
      simp at hs
    | ok g =>
      rw [hns] at hs
      simp only [Except.ok.injEq] at hs
      rw [hs]

/-- C4 witness: concrete successful runs of the four accessors; the three
forecast ones return the fixture response with the resolved record attached,
and the stations result is exactly the decoded response. -/
theorem accessors_attach_point_witness :
    ({ fr0 with Point := some pr0 } : ForecastResponse).Point = some pr0 ∧
    ({ hr0 with Point := some pr0 } : HourlyForecastResponse).Point = some pr0 ∧
    ({ gr0 with Point := some pr0 } : GridpointForecastResponse).Point = some pr0 ∧
    net0.stations pr0.EndpointObservationStations = .ok st0 :=
  ⟨(accessors_attach_point cfg0 net0 emptyCache "1" "2" pr0 rfl).1
      { fr0 with Point := some pr0 } rfl,
    (accessors_attach_point cfg0 net0 emptyCache "1" "2" pr0 rfl).2.1
      { hr0 with Point := some pr0 } rfl,
    (accessors_attach_point cfg0 net0 emptyCache "1" "2" pr0 rfl).2.2.1
      { gr0 with Point := some pr0 } rfl,
    (accessors_attach_point cfg0 net0 emptyCache "1" "2" pr0 rfl).2.2.2 st0 rfl⟩

/-- C4 counterexample: no back-reference function on stations results can
recover the points record used: two runs that resolve different records
(`pr0` and `pr1`) return identical stations results, so the claim that every
successful `Stations` call returns a result carrying the used record is
false. -/
theorem stations_no_back_reference :
    ¬ ∃ br : StationsResponse → PointsResponse,
      ∀ (cfg : Config) (net : Net) (cache : Cache) (lat lon : String)
        (p : PointsResponse) (s : StationsResponse),
        (Points cfg net cache lat lon).1 = .ok p →
        (Stations cfg net cache lat lon).1 = .ok s →
        br s = p := by
  rintro ⟨br, h⟩
  have h0 : br st0 = pr0 := h cfg0 net0 emptyCache "1" "2" pr0 st0 rfl rfl
  have h1 : br st0 = pr1 := h cfg0 net1 emptyCache "1" "2" pr1 st0 rfl rfl
  rw [h0] at h1
  exact absurd h1 (by decide)

/-- C5 (amended): the three forecast accessors request their resolved URL
with "?units=<pref>" appended exactly when a unit preference is configured;
`Stations` requests the resolved observation-stations URL with no query
parameter regardless of the configured units. -/
theorem accessors_units_query (cfg : Config) (net : Net) (cache : Cache)
    (lat lon : String) (p : PointsResponse)
    (hp : (Points cfg net cache lat lon).1 = .ok p) :
    (Forecast cfg net cache lat lon).2.2 =
      (Points cfg net cache lat lon).2.2 ++
        [p.EndpointForecast ++ getUnitsQueryParam cfg "?"] ∧
    (HourlyForecast cfg net cache lat lon).2.2 =
      (Points cfg net cache lat lon).2.2 ++
        [p.EndpointForecastHourly ++ getUnitsQueryParam cfg "?"] ∧
    (GridpointForecast cfg net cache lat lon).2.2 =
      (Points cfg net cache lat lon).2.2 ++
        [p.EndpointForecastGridData ++ getUnitsQueryParam cfg "?"] ∧
    (Stations cfg net cache lat lon).2.2 =
      (Points cfg net cache lat lon).2.2 ++ [p.EndpointObservationStations] ∧
    getUnitsQueryParam cfg "?" =
      (if cfg.Units ≠ "" then "?units=" ++ cfg.Units else "") := by
  rcases hP : Points cfg net cache lat lon with ⟨r, c, tr⟩
  rw [hP] at hp
  simp only at hp
  subst hp
  refine ⟨?_, ?_, ?_, ?_, ?_⟩
  · unfold Forecast
    rw [hP]
    simp only
    cases hnf : net.forecast (p.EndpointForecast ++ getUnitsQueryParam cfg "?") <;> rfl
  · unfold HourlyForecast
    rw [hP]
    simp only
    cases hnf : net.hourly (p.EndpointForecastHourly ++ getUnitsQueryParam cfg "?") <;> rfl
  · unfold GridpointForecast
    rw [hP]
    simp only
    cases hnf : net.gridpoint (p.EndpointForecastGridData ++ getUnitsQueryParam cfg "?") <;> rfl
  · unfold Stations
    rw [hP]
    simp only
    cases hns : net.stations p.EndpointObservationStations <;> rfl
  · unfold getUnitsQueryParam
    by_cases hu : cfg.Units ≠ ""
    · rw [if_pos hu, if_pos hu]
      rfl
    · rw [if_neg hu, if_neg hu]

/-- C5 witness: with metric units configured, the forecast accessors append
"?units=si" to the resolved URLs while the stations accessor requests the
bare stations URL. -/
theorem accessors_units_query_witness :
    (Forecast cfgSI net0 emptyCache "1" "2").2.2 =
      (Points cfgSI net0 emptyCache "1" "2").2.2 ++
        [pr0.EndpointForecast ++ getUnitsQueryParam cfgSI "?"] ∧
    (HourlyForecast cfgSI net0 emptyCache "1" "2").2.2 =
      (Points cfgSI net0 emptyCache "1" "2").2.2 ++
        [pr0.EndpointForecastHourly ++ getUnitsQueryParam cfgSI "?"] ∧
    (GridpointForecast cfgSI net0 emptyCache "1" "2").2.2 =
      (Points cfgSI net0 emptyCache "1" "2").2.2 ++
        [pr0.EndpointForecastGridData ++ getUnitsQueryParam cfgSI "?"] ∧
    (Stations cfgSI net0 emptyCache "1" "2").2.2 =
      (Points cfgSI net0 emptyCache "1" "2").2.2 ++ [pr0.EndpointObservationStations] ∧
    getUnitsQueryParam cfgSI "?" =
      (if cfgSI.Units ≠ "" then "?units=" ++ cfgSI.Units else "") :=
  accessors_units_query cfgSI net0 emptyCache "1" "2" pr0 rfl

/-- C5 counterexample: with units configured to "si" the stations accessor
requests exactly "S" (the resolved stations URL), not "S?units=si" as the
claim requires for all four accessors. -/
theorem stations_ignores_units_param :
    cfgSI.Units = "si" ∧
    (Stations cfgSI net0 emptyCache "1" "2").2.2 =
      [endpointPoints cfgSI "1" "2", "S"] ∧
    ("S" : String) ≠ "S" ++ "?units=" ++ "si" := by
  refine ⟨rfl, rfl, by decide⟩

/-- C3 (amended): the pipeline GET fails with an HTTP-status error exactly
when the status code differs from 200: every non-2xx response yields an
error carrying the numeric code and the status text and no result object,
but a 2xx response avoids the error only when the code is exactly 200 —
any other 2xx code (201, 204, ...) also yields the HTTP-status error. -/
theorem get_status_200_only (transport : String → Except String HttpResponse)
    (endpoint : String) (res : HttpResponse)
    (h : transport endpoint = .ok res) :
    (¬ (200 ≤ res.StatusCode ∧ res.StatusCode < 300) →
      Http.get transport endpoint = .error (toString res.StatusCode ++ " " ++ res.Status)) ∧
    (res.StatusCode ≠ 200 →
      Http.get transport endpoint = .error (toString res.StatusCode ++ " " ++ res.Status)) ∧
    (res.StatusCode = 200 → Http.get transport endpoint = .ok res) := by
  have hne : ∀ hcode : res.StatusCode ≠ 200,
      Http.get transport endpoint = .error (toString res.StatusCode ++ " " ++ res.Status) := by
    intro hcode
    unfold Http.get
    rw [h]
    simp only
    rw [if_pos hcode]
  refine ⟨?_, hne, ?_⟩
  · intro hout
    apply hne
    intro hcode
    exact hout (by rw [hcode]; exact ⟨by decide, by decide⟩)
  · intro hcode
    unfold Http.get
    rw [h]
    simp only
    rw [if_neg (by rw [hcode]; exact fun hx => hx rfl)]

/-- C3 witness: a 404 response produces the "404 404 Not Found" status
error and no result, while a plain 200 response is passed through. -/
theorem get_status_200_only_witness :
    Http.get (fun _ => .ok { StatusCode := 404, Status := "404 Not Found", Body := "" }) "e" =
      .error "404 404 Not Found" ∧
    Http.get (fun _ => .ok { StatusCode := 200, Status := "200 OK", Body := "b" }) "e" =
      .ok { StatusCode := 200, Status := "200 OK", Body := "b" } :=
  ⟨(get_status_200_only (fun _ => .ok { StatusCode := 404, Status := "404 Not Found", Body := "" })
      "e" { StatusCode := 404, Status := "404 Not Found", Body := "" } rfl).2.1 (by decide),
    (get_status_200_only (fun _ => .ok { StatusCode := 200, Status := "200 OK", Body := "b" })
      "e" { StatusCode := 200, Status := "200 OK", Body := "b" } rfl).2.2 rfl⟩

/-- C3 counterexample: a 201 response is a 2xx status, yet the pipeline
returns an HTTP-status error for it, because the source compares against
exactly 200 (`http.StatusOK`), not against the 2xx range. -/
theorem get_status_201_errors :
    (200 ≤ 201 ∧ 201 < 300) ∧
    Http.get (fun _ => .ok { StatusCode := 201, Status := "201 Created", Body := "" }) "e" =
      .error "201 201 Created" := by
  exact ⟨⟨by decide, by decide⟩, rfl⟩

/-- C9: in the unit normalizer with US units in effect (any configured
units value other than "si") and a wind-speed unit code that is not km/h,
a quantitative wind speed with min = 0, max = 0 and value = 12 renders
exactly "12 mph", and one with min = 5 and max = 10 renders exactly
"5 to 10 mph". -/
theorem wind_speed_string_us (units : String) (qv1 qv2 : QuantitativeValue)
    (hu : units ≠ "si")
    (hc1 : isUnitCodeKmh qv1.UnitCode = false)
    (hc2 : isUnitCodeKmh qv2.UnitCode = false)
    (h1min : qv1.MinValue = 0) (h1max : qv1.MaxValue = 0) (h1v : qv1.Value = 12)
    (h2min : qv2.MinValue = 5) (h2max : qv2.MaxValue = 10) :
    normalizeWindSpeed units qv1 = "12 mph" ∧
    normalizeWindSpeed units qv2 = "5 to 10 mph" := by
  constructor
  · unfold normalizeWindSpeed
    rw [if_neg hu, if_neg (by simp [hc1])]
    unfold windSpeedText
    rw [if_pos ⟨h1min, h1max⟩, h1v]
    decide
  · unfold normalizeWindSpeed
    rw [if_neg hu, if_neg (by simp [hc2])]
    unfold windSpeedText
    rw [h2min, h2max, if_neg (by decide)]
    decide

/-- C9 witness: concrete quantitative wind speeds with mph unit codes under
the "us" unit preference. -/
theorem wind_speed_string_us_witness :
    normalizeWindSpeed "us"
      { Value := 12, MaxValue := 0, MinValue := 0
      , UnitCode := "wmoUnit:mph", QualityControl := "" } = "12 mph" ∧
    normalizeWindSpeed "us"
      { Value := 7, MaxValue := 10, MinValue := 5
      , UnitCode := "wmoUnit:mph", QualityControl := "" } = "5 to 10 mph" :=
  wind_speed_string_us "us"
    { Value := 12, MaxValue := 0, MinValue := 0
    , UnitCode := "wmoUnit:mph", QualityControl := "" }
    { Value := 7, MaxValue := 10, MinValue := 5
    , UnitCode := "wmoUnit:mph", QualityControl := "" }
    (by decide) rfl rfl rfl rfl rfl rfl rfl
